import Mathlib

/-!
Verification development for the RotterdamHackathon travel-photo pipeline.

The repository defines pydantic output schemas for its model-backed stages
and wires the stages together as google-adk agents.  We embed:

* a JSON-like value type for candidate model output, and the pydantic-v2
  validation semantics of each schema class (required fields, lax numeric
  coercion of integral JSON numbers to int, `Optional[T]` fields that are
  required but accept an explicit null);
* the agent constructions themselves (model id, name, tool list, output
  schema, transfer flags), so that the delegation wiring of the root agent
  in src/python/atlance/agent.py is a checkable datum.

Prompt/instruction strings and the description texts are not modelled:
the specification declares prompt-engineering content out of scope, and no
settled property depends on them.  Python float fields are modelled as
exact rationals; pydantic reports errors for all fields at once while the
embedding reports the first failing field in declaration order, which no
settled property depends on either.
-/

/-- JSON-like values, the shape of candidate model output that pydantic
validates. -/
inductive Json where
  | null : Json
  | bool : Bool → Json
  | num : ℚ → Json
  | str : String → Json
  | arr : List Json → Json
  | obj : List (String × Json) → Json

/-- Error taxonomy of the contract layer, from the specification (§4.1/§7):
a required field is absent, a field value does not convert to its declared
type, or a cross-field invariant fails. -/
inductive ContractError where
  | MissingField : String → ContractError
  | TypeMismatch : String → ContractError
  | ConstraintViolation : String → ContractError
deriving DecidableEq

/-- Look a key up in the field list of a JSON object. -/
def getField : List (String × Json) → String → Option Json
  | [], _ => none
  | (k, v) :: rest, key => if k = key then some v else getField rest key

/-- A pydantic field with no default is required: absence is an error. -/
def requireField (fields : List (String × Json)) (key : String) :
    Except ContractError Json :=
  match getField fields key with
  | some v => Except.ok v
  | none => Except.error (ContractError.MissingField key)

/-- Validation of an `int` field: a JSON number with denominator 1
(pydantic lax mode accepts integral numbers). -/
def validateInt (field : String) : Json → Except ContractError Int
  | Json.num q =>
      if q.den = 1 then Except.ok q.num
      else Except.error (ContractError.TypeMismatch field)
  | _ => Except.error (ContractError.TypeMismatch field)

/-- Validation of a `float` field: any JSON number, kept exactly. -/
def validateFloat (field : String) : Json → Except ContractError ℚ
  | Json.num q => Except.ok q
  | _ => Except.error (ContractError.TypeMismatch field)

/-- Validation of a `str` field. -/
def validateStr (field : String) : Json → Except ContractError String
  | Json.str s => Except.ok s
  | _ => Except.error (ContractError.TypeMismatch field)

/-- Validate every element of a JSON array with the element validator,
keeping order. -/
def validateList (f : Json → Except ContractError α) :
    List Json → Except ContractError (List α)
  | [] => Except.ok []
  | x :: xs =>
    match f x with
    | Except.error e => Except.error e
    | Except.ok a =>
      match validateList f xs with
      | Except.error e => Except.error e
      | Except.ok as => Except.ok (a :: as)

/-- Validation of a `List[int]` field. -/
def validateListInt (field : String) : Json → Except ContractError (List Int)
  | Json.arr xs => validateList (validateInt field) xs
  | _ => Except.error (ContractError.TypeMismatch field)

/-- Validation of a `List[str]` field. -/
def validateListStr (field : String) : Json → Except ContractError (List String)
  | Json.arr xs => validateList (validateStr field) xs
  | _ => Except.error (ContractError.TypeMismatch field)

/-- A pydantic-v2 `Optional[T]` field with no default: the key must be
present, an explicit null validates to `none`, anything else runs the
inner validator. -/
def validateOpt (f : Json → Except ContractError α) : Json → Except ContractError (Option α)
  | Json.null => Except.ok none
  | v =>
    match f v with
    | Except.error e => Except.error e
    | Except.ok a => Except.ok (some a)

/-- Encode an optional value back to JSON the way pydantic model_dump
does: absence becomes an explicit null. -/
def optJson (f : α → Json) : Option α → Json
  | none => Json.null
  | some a => f a

/-- The tools an adk agent may invoke: the google_search tool, or another
agent wrapped as a tool (referenced here by that agent name). -/
inductive Tool where
  | googleSearch : Tool
  | agentTool : String → Tool
deriving DecidableEq

/-- The constructed state of an adk agent, restricted to the fields the
source files set and that the claims concern: model id, agent name, tool
list, output schema (by schema class name), and the two transfer flags,
which default to false when a construction omits them. -/
structure AgentDef where
  model : String
  name : String
  tools : List Tool
  outputSchemaName : Option String
  disallow_transfer_to_parent : Bool
  disallow_transfer_to_peers : Bool
deriving DecidableEq

/-- agent_tool.AgentTool wraps an agent as an invocable tool. -/
def AgentTool (a : AgentDef) : Tool := Tool.agentTool a.name

/-- The names of the sub-agents an agent can delegate to through its tool
list: its DelegateCapability grant. -/
def AgentDef.delegableNames (a : AgentDef) : List String :=
  a.tools.filterMap fun t =>
    match t with
    | Tool.agentTool n => some n
    | Tool.googleSearch => none

namespace Agents.DuplicateRemover

/-- Schema of src/agents/duplicate_remover_agent/agent.py:
selected_indices is a List[int], reasons is a str. -/
structure ImageSelectionResponse where
  selected_indices : List Int
  reasons : String
deriving DecidableEq

/-- pydantic validation of ImageSelectionResponse in
src/agents/duplicate_remover_agent/agent.py: both fields required and
type-checked; the class declares no validators beyond the field types. -/
def ImageSelectionResponse.validate : Json → Except ContractError ImageSelectionResponse
  | Json.obj fields =>
    Except.bind (requireField fields "selected_indices") fun v1 =>
    Except.bind (validateListInt "selected_indices" v1) fun xs =>
    Except.bind (requireField fields "reasons") fun v2 =>
    Except.bind (validateStr "reasons" v2) fun s =>
    Except.ok ⟨xs, s⟩
  | _ => Except.error (ContractError.TypeMismatch "ImageSelectionResponse")

/-- The root_agent constructed in src/agents/duplicate_remover_agent/agent.py. -/
def root_agent : AgentDef :=
  ⟨"gemini-2.5-flash", "root_agent", [], some "ImageSelectionResponse", false, false⟩

end Agents.DuplicateRemover

namespace DuplicateRemover

/-- Schema of src/duplicate_remover_agent/agent.py: the same two fields,
selected_indices a List[int] and reasons a str. -/
structure ImageSelectionResponse where
  selected_indices : List Int
  reasons : String
deriving DecidableEq

/-- pydantic validation of ImageSelectionResponse in
src/duplicate_remover_agent/agent.py; the class body is identical to the
one under src/agents/. -/
def ImageSelectionResponse.validate : Json → Except ContractError ImageSelectionResponse
  | Json.obj fields =>
    Except.bind (requireField fields "selected_indices") fun v1 =>
    Except.bind (validateListInt "selected_indices" v1) fun xs =>
    Except.bind (requireField fields "reasons") fun v2 =>
    Except.bind (validateStr "reasons" v2) fun s =>
    Except.ok ⟨xs, s⟩
  | _ => Except.error (ContractError.TypeMismatch "ImageSelectionResponse")

/-- The root_agent constructed in src/duplicate_remover_agent/agent.py. -/
def root_agent : AgentDef :=
  ⟨"gemini-2.5-flash", "root_agent", [], some "ImageSelectionResponse", false, false⟩

end DuplicateRemover

namespace Atlance

/-- Location schema of src/python/atlance/sub_agents/data_extractor_agent/agent.py:
lat and lng are plain float fields (the class declares no range validators). -/
structure Location where
  lat : ℚ
  lng : ℚ
deriving DecidableEq

/-- pydantic validation of Location: both fields required and numeric. -/
def Location.validate : Json → Except ContractError Location
  | Json.obj fields =>
    Except.bind (requireField fields "lat") fun v1 =>
    Except.bind (validateFloat "lat" v1) fun la =>
    Except.bind (requireField fields "lng") fun v2 =>
    Except.bind (validateFloat "lng" v2) fun ln =>
    Except.ok ⟨la, ln⟩
  | _ => Except.error (ContractError.TypeMismatch "Location")

/-- pydantic model_dump of a Location. -/
def Location.serialize (l : Location) : Json :=
  Json.obj [("lat", Json.num l.lat), ("lng", Json.num l.lng)]

/-- ImageAnalysis schema of the data extractor: path a str, timestamp an
Optional[str], location an Optional[Location], subjects a List[str]. -/
structure ImageAnalysis where
  path : String
  timestamp : Option String
  location : Option Location
  subjects : List String
deriving DecidableEq

/-- pydantic-v2 validation of ImageAnalysis.  The Optional fields carry no
default in the source class, so their keys are required; an explicit null
validates to `none` and is never replaced by a default value. -/
def ImageAnalysis.validate : Json → Except ContractError ImageAnalysis
  | Json.obj fields =>
    Except.bind (requireField fields "path") fun v1 =>
    Except.bind (validateStr "path" v1) fun p =>
    Except.bind (requireField fields "timestamp") fun v2 =>
    Except.bind (validateOpt (validateStr "timestamp") v2) fun ts =>
    Except.bind (requireField fields "location") fun v3 =>
    Except.bind (validateOpt Location.validate v3) fun loc =>
    Except.bind (requireField fields "subjects") fun v4 =>
    Except.bind (validateListStr "subjects" v4) fun subs =>
    Except.ok ⟨p, ts, loc, subs⟩
  | _ => Except.error (ContractError.TypeMismatch "ImageAnalysis")

/-- pydantic model_dump of an ImageAnalysis: absent optional fields are
emitted as explicit nulls. -/
def ImageAnalysis.serialize (a : ImageAnalysis) : Json :=
  Json.obj
    [("path", Json.str a.path),
     ("timestamp", optJson Json.str a.timestamp),
     ("location", optJson Location.serialize a.location),
     ("subjects", Json.arr (a.subjects.map Json.str))]

/-- DataExtractionResponse schema of the data extractor: images a
List[ImageAnalysis], preliminary_story a str.  The class declares no
validator relating the length of images to anything. -/
structure DataExtractionResponse where
  images : List ImageAnalysis
  preliminary_story : String
deriving DecidableEq

/-- Validation of a List[ImageAnalysis] field. -/
def validateListImage (field : String) : Json → Except ContractError (List ImageAnalysis)
  | Json.arr xs => validateList ImageAnalysis.validate xs
  | _ => Except.error (ContractError.TypeMismatch field)

/-- pydantic validation of DataExtractionResponse. -/
def DataExtractionResponse.validate : Json → Except ContractError DataExtractionResponse
  | Json.obj fields =>
    Except.bind (requireField fields "images") fun v1 =>
    Except.bind (validateListImage "images" v1) fun imgs =>
    Except.bind (requireField fields "preliminary_story") fun v2 =>
    Except.bind (validateStr "preliminary_story" v2) fun s =>
    Except.ok ⟨imgs, s⟩
  | _ => Except.error (ContractError.TypeMismatch "DataExtractionResponse")

/-- pydantic model_dump of a DataExtractionResponse. -/
def DataExtractionResponse.serialize (r : DataExtractionResponse) : Json :=
  Json.obj
    [("images", Json.arr (r.images.map ImageAnalysis.serialize)),
     ("preliminary_story", Json.str r.preliminary_story)]

/-- The landmark_search_agent constructed in
src/python/atlance/sub_agents/landmark_search_agent/agent.py: its only
tool is google_search and both transfer flags are set to True at
construction. -/
def landmark_search_agent : AgentDef :=
  ⟨"gemini-2.5-flash", "landmark_search_agent", [Tool.googleSearch], none, true, true⟩

/-- The auxiliary Agent_Search constructed in the data extractor module,
a search specialist wrapped as a tool of the extractor. -/
def Agent_Search : AgentDef :=
  ⟨"gemini-2.5-flash", "SearchAgent", [Tool.googleSearch], none, false, false⟩

/-- The data_extractor_agent of
src/python/atlance/sub_agents/data_extractor_agent/agent.py. -/
def data_extractor_agent : AgentDef :=
  ⟨"gemini-2.5-flash", "data_extractor_agent", [AgentTool Agent_Search],
   some "DataExtractionResponse", false, false⟩

/-- The question_asker of src/python/atlance/sub_agents/question_asker/agent.py:
no tools, no output schema, default transfer flags. -/
def question_asker : AgentDef :=
  ⟨"gemini-2.5-flash", "question_asker", [], none, false, false⟩

/-- Modelled from the spec: the Selection sub-stage.  src/python/atlance/agent.py
imports duplicate_remover_agent from .sub_agents.duplicate_remover_agent.agent,
but that module is not under src/; following the import path and the spec
Selection stage, it is modelled as an agent carrying the imported symbol
name, with the Selection output schema of the two duplicate-remover files
that are in src/. -/
def duplicate_remover_agent : AgentDef :=
  ⟨"gemini-2.5-flash", "duplicate_remover_agent", [],
   some "ImageSelectionResponse", false, false⟩

/-- The root agent am of src/python/atlance/agent.py: its tools wrap the
imported a1 (duplicate_remover_agent), a2 (data_extractor_agent) and a3
(question_asker), in that order, and nothing else. -/
def am : AgentDef :=
  ⟨"gemini-2.5-flash", "root_agent",
   [AgentTool duplicate_remover_agent, AgentTool data_extractor_agent,
    AgentTool question_asker],
   none, false, false⟩

/-- src/python/atlance/agent.py exports am as root_agent. -/
def root_agent : AgentDef := am

end Atlance

/-- JSON encoding of one selection index. -/
def jsonOfInt (i : Int) : Json := Json.num (i : ℚ)

/-- A concrete SelectionResult candidate as the model would emit it:
an object with a selected_indices array and a reasons string. -/
def encodeSelection (xs : List Int) (s : String) : Json :=
  Json.obj
    [("selected_indices", Json.arr (xs.map jsonOfInt)),
     ("reasons", Json.str s)]

/-- A concrete one-image analysis used by the extraction counterexample. -/
def imgParis : Atlance.ImageAnalysis := ⟨"paris.jpg", none, none, ["eiffel tower"]⟩

/-- An ImageAnalysis candidate omitting the timestamp key entirely. -/
def candidateNoTimestamp : List (String × Json) :=
  [("path", Json.str "a.jpg"), ("location", Json.null), ("subjects", Json.arr [])]

/-- An ImageAnalysis candidate omitting the location key entirely. -/
def candidateNoLocation : List (String × Json) :=
  [("path", Json.str "a.jpg"), ("timestamp", Json.null), ("subjects", Json.arr [])]

/-- An ImageAnalysis candidate supplying explicit nulls for both optional
fields. -/
def candidateNullFields : List (String × Json) :=
  [("path", Json.str "a.jpg"), ("timestamp", Json.null),
   ("location", Json.null), ("subjects", Json.arr [])]

theorem except_bind_ok {α β : Type} {x : Except ContractError α}
    {f : α → Except ContractError β} {b : β}
    (h : Except.bind x f = Except.ok b) :
    ∃ a, x = Except.ok a ∧ f a = Except.ok b := by
  cases x with
  | error e => exact absurd h (by simp [Except.bind])
  | ok a => exact ⟨a, rfl, h⟩

theorem validateInt_jsonOfInt (fld : String) (i : Int) :
    validateInt fld (jsonOfInt i) = Except.ok i := by
  simp [jsonOfInt, validateInt, Rat.den_intCast, Rat.num_intCast]

theorem validateList_map_int (fld : String) (xs : List Int) :
    validateList (validateInt fld) (xs.map jsonOfInt) = Except.ok xs := by
  induction xs with
  | nil => rfl
  | cons x xs ih => rw [List.map_cons, validateList, validateInt_jsonOfInt, ih]

theorem validateList_map_str (fld : String) (ss : List String) :
    validateList (validateStr fld) (ss.map Json.str) = Except.ok ss := by
  induction ss with
  | nil => rfl
  | cons x ss ih => rw [List.map_cons, validateList, validateStr, ih]

theorem validateOpt_optJson_str (ts : Option String) :
    validateOpt (validateStr "timestamp") (optJson Json.str ts) = Except.ok ts := by
  cases ts <;> rfl

theorem validateOpt_optJson_loc (loc : Option Atlance.Location) :
    validateOpt Atlance.Location.validate (optJson Atlance.Location.serialize loc) =
      Except.ok loc := by
  cases loc <;> rfl

theorem imageAnalysis_roundtrip (a : Atlance.ImageAnalysis) :
    Atlance.ImageAnalysis.validate a.serialize = Except.ok a := by
  obtain ⟨p, ts, loc, subs⟩ := a
  show Except.bind (validateOpt (validateStr "timestamp") (optJson Json.str ts)) (fun ts2 =>
    Except.bind (validateOpt Atlance.Location.validate (optJson Atlance.Location.serialize loc))
      (fun loc2 =>
    Except.bind (validateList (validateStr "subjects") (subs.map Json.str)) (fun subs2 =>
    Except.ok (⟨p, ts2, loc2, subs2⟩ : Atlance.ImageAnalysis)))) =
    Except.ok ⟨p, ts, loc, subs⟩
  rw [validateOpt_optJson_str, validateOpt_optJson_loc]
  show Except.bind (validateList (validateStr "subjects") (subs.map Json.str)) (fun subs2 =>
    Except.ok (⟨p, ts, loc, subs2⟩ : Atlance.ImageAnalysis)) = Except.ok ⟨p, ts, loc, subs⟩
  rw [validateList_map_str]
  rfl

theorem validateList_map_image (imgs : List Atlance.ImageAnalysis) :
    validateList Atlance.ImageAnalysis.validate (imgs.map Atlance.ImageAnalysis.serialize) =
      Except.ok imgs := by
  induction imgs with
  | nil => rfl
  | cons a imgs ih => rw [List.map_cons, validateList, imageAnalysis_roundtrip, ih]

theorem dataExtractionResponse_roundtrip (r : Atlance.DataExtractionResponse) :
    Atlance.DataExtractionResponse.validate r.serialize = Except.ok r := by
  obtain ⟨imgs, story⟩ := r
  show Except.bind
      (validateList Atlance.ImageAnalysis.validate (imgs.map Atlance.ImageAnalysis.serialize))
      (fun imgs2 => Except.ok (⟨imgs2, story⟩ : Atlance.DataExtractionResponse)) =
    Except.ok ⟨imgs, story⟩
  rw [validateList_map_image]
  rfl

/-- C1 counterexample: the claim says a SelectionResult candidate with a
duplicate index, such as selected_indices [0, 2, 2] against batch size 10,
is rejected with ConstraintViolation.  On the code the pydantic schema
declares no such validator: the candidate validates successfully, and the
index 2 indeed occurs twice in the accepted result. -/
theorem selection_duplicate_indices_accepted :
    Agents.DuplicateRemover.ImageSelectionResponse.validate
        (encodeSelection [0, 2, 2] "two duplicates") =
      Except.ok ⟨[0, 2, 2], "two duplicates"⟩ ∧
    ([0, 2, 2] : List Int).count 2 = 2 :=
  ⟨rfl, by decide⟩

/-- C1 (amended): validation of a SelectionResult candidate accepts every
candidate whose selected_indices is a list of integers and whose reasons
is a string; no range, uniqueness or maximum-count constraint is checked,
so [1, 3, 9] is accepted and so is any other integer list. -/
theorem selection_validation_accepts_any_int_list (xs : List Int) (s : String) :
    Agents.DuplicateRemover.ImageSelectionResponse.validate (encodeSelection xs s) =
      Except.ok ⟨xs, s⟩ := by
  show Except.bind (validateList (validateInt "selected_indices") (xs.map jsonOfInt))
      (fun ys => Except.ok (⟨ys, s⟩ : Agents.DuplicateRemover.ImageSelectionResponse)) =
    Except.ok ⟨xs, s⟩
  rw [validateList_map_int]
  rfl

/-- C2 counterexample: the claim says an ExtractionResult candidate whose
images length mismatches the preceding selection count is rejected with
ContractViolation.  On the code, with the spec example selection [0, 4, 7]
(three routed images), a candidate carrying a single image validates
successfully: the schema relates the images length to nothing. -/
theorem extraction_length_mismatch_accepted :
    Atlance.DataExtractionResponse.validate
        (Atlance.DataExtractionResponse.serialize ⟨[imgParis], "a day in paris"⟩) =
      Except.ok ⟨[imgParis], "a day in paris"⟩ ∧
    [imgParis].length < ([0, 4, 7] : List Int).length :=
  ⟨dataExtractionResponse_roundtrip ⟨[imgParis], "a day in paris"⟩, by decide⟩

/-- C2 (amended): validation of an ExtractionResult candidate checks only
the per-field shapes: a well-formed images list of any length is accepted,
and no comparison with the count of images routed into extraction is
performed. -/
theorem extraction_validation_ignores_length
    (imgs : List Atlance.ImageAnalysis) (story : String) :
    Atlance.DataExtractionResponse.validate
        (Atlance.DataExtractionResponse.serialize ⟨imgs, story⟩) =
      Except.ok ⟨imgs, story⟩ :=
  dataExtractionResponse_roundtrip ⟨imgs, story⟩

/-- C3 counterexample: the claim says the delegable sub-stage set of the
root stage includes the Landmark stage.  On the code the tool list of am
in src/python/atlance/agent.py never references landmark_search_agent. -/
theorem landmark_not_delegable_from_root :
    Atlance.am.delegableNames.contains Atlance.landmark_search_agent.name = false := rfl

/-- C3 (amended): in delegating-root mode the root stage is granted
DelegateCapability over exactly the Selection, Extraction and Question
sub-stages; the Landmark stage is constructed in the repository but not
wired into the root, so landmark enrichment cannot be invoked in a run. -/
theorem root_delegable_set_excludes_landmark :
    Atlance.am.delegableNames =
      [Atlance.duplicate_remover_agent.name, Atlance.data_extractor_agent.name,
       Atlance.question_asker.name] := rfl

/-- C4: the landmark-search stage is constructed with both transfer flags
set (its transfer to parent and to peers disallowed), its tool list holds
only the search capability, and in particular it carries no
DelegateCapability at all: it can be invoked but can never itself invoke
its parent or any peer stage. -/
theorem landmark_transfer_grants_fixed_at_construction :
    Atlance.landmark_search_agent.disallow_transfer_to_parent = true ∧
    Atlance.landmark_search_agent.disallow_transfer_to_peers = true ∧
    Atlance.landmark_search_agent.tools = [Tool.googleSearch] ∧
    Atlance.landmark_search_agent.delegableNames = [] :=
  ⟨rfl, rfl, rfl, rfl⟩

/-- C5 counterexample: the claim says a Location candidate with lat
outside [-90, 90] fails with TypeMismatch.  On the code the schema
declares plain float fields with no range validators, so lat 1000 (which
exceeds 90) validates successfully. -/
theorem location_out_of_range_accepted :
    Atlance.Location.validate
        (Json.obj [("lat", Json.num 1000), ("lng", Json.num 0)]) =
      Except.ok ⟨1000, 0⟩ ∧ (90 : ℚ) < 1000 :=
  ⟨rfl, by norm_num⟩

/-- C5 (amended): Location validation accepts any pair of numeric lat and
lng values; no range check against [-90, 90] or [-180, 180] exists, and an
out-of-range coordinate is never rejected. -/
theorem location_validation_no_range_check (la ln : ℚ) :
    Atlance.Location.validate (Json.obj [("lat", Json.num la), ("lng", Json.num ln)]) =
      Except.ok ⟨la, ln⟩ := rfl

/-- C6: for every ImageAnalysis candidate whose timestamp and location
fields hold an explicit null, a successful validation yields a result in
which both fields are the absent state none, never a substituted default,
and the absent state remains distinguishable from the empty string and
from the zero coordinate. -/
theorem imageanalysis_absence_never_coerced
    (fields : List (String × Json)) (r : Atlance.ImageAnalysis)
    (hts : getField fields "timestamp" = some Json.null)
    (hloc : getField fields "location" = some Json.null)
    (hok : Atlance.ImageAnalysis.validate (Json.obj fields) = Except.ok r) :
    r.timestamp = none ∧ r.location = none ∧
    r.timestamp ≠ some "" ∧ r.location ≠ some ⟨0, 0⟩ := by
  rw [Atlance.ImageAnalysis.validate] at hok
  obtain ⟨v1, hv1, hok⟩ := except_bind_ok hok
  obtain ⟨p, hp, hok⟩ := except_bind_ok hok
  obtain ⟨v2, hv2, hok⟩ := except_bind_ok hok
  rw [requireField, hts] at hv2
  obtain ⟨ts, hts2, hok⟩ := except_bind_ok hok
  obtain ⟨v3, hv3, hok⟩ := except_bind_ok hok
  rw [requireField, hloc] at hv3
  obtain ⟨loc, hloc2, hok⟩ := except_bind_ok hok
  obtain ⟨v4, hv4, hok⟩ := except_bind_ok hok
  obtain ⟨subs, hsubs, hok⟩ := except_bind_ok hok
  cases hv2
  cases hv3
  rw [validateOpt] at hts2 hloc2
  cases hts2
  cases hloc2
  cases hok
  exact ⟨rfl, rfl, by simp, by simp⟩

/-- C6 witness: the hypotheses of imageanalysis_absence_never_coerced hold
at the concrete candidate with explicit nulls, whose validation succeeds
and preserves both absences. -/
theorem imageanalysis_absence_never_coerced_witness :
    (⟨"a.jpg", none, none, []⟩ : Atlance.ImageAnalysis).timestamp = none ∧
    (⟨"a.jpg", none, none, []⟩ : Atlance.ImageAnalysis).location = none :=
  ⟨(imageanalysis_absence_never_coerced candidateNullFields
      ⟨"a.jpg", none, none, []⟩ rfl rfl rfl).1,
   (imageanalysis_absence_never_coerced candidateNullFields
      ⟨"a.jpg", none, none, []⟩ rfl rfl rfl).2.1⟩

/-- C8: the Location with lat 48.8584 and lng 2.2945 serializes and
validates back to the identical numeric values. -/
theorem location_serialize_roundtrip_eiffel :
    Atlance.Location.validate (Atlance.Location.serialize ⟨48.8584, 2.2945⟩) =
      Except.ok ⟨48.8584, 2.2945⟩ := rfl

/-- C9: the two ImageSelectionResponse schemas, in
src/agents/duplicate_remover_agent/agent.py and
src/duplicate_remover_agent/agent.py, validate every candidate to the same
outcome: the same acceptance or the same error, with equal selected_indices
and reasons in the accepted results. -/
theorem dup_schemas_equivalent (c : Json) :
    (Agents.DuplicateRemover.ImageSelectionResponse.validate c).map
      (fun r => (r.selected_indices, r.reasons)) =
    (DuplicateRemover.ImageSelectionResponse.validate c).map
      (fun r => (r.selected_indices, r.reasons)) := by
  cases c with
  | obj fields =>
    simp only [Agents.DuplicateRemover.ImageSelectionResponse.validate,
      DuplicateRemover.ImageSelectionResponse.validate]
    cases requireField fields "selected_indices" with
    | error e => rfl
    | ok v1 =>
      simp only [Except.bind]
      cases validateListInt "selected_indices" v1 with
      | error e => rfl
      | ok xs =>
        simp only [Except.bind]
        cases requireField fields "reasons" with
        | error e => rfl
        | ok v2 =>
          simp only [Except.bind]
          cases validateStr "reasons" v2 with
          | error e => rfl
          | ok s => rfl
  | null => rfl
  | bool b => rfl
  | num q => rfl
  | str s => rfl
  | arr xs => rfl

/-- C10: the optional ImageAnalysis fields are required but nullable: a
candidate whose path is well-formed but whose timestamp key is missing is
rejected with MissingField timestamp; one whose timestamp is an explicit
null but whose location key is missing is rejected with MissingField
location; and the candidate supplying explicit nulls for both is accepted
with both fields recorded as absent, no default substituted. -/
theorem optional_fields_required_but_nullable
    (f1 f2 : List (String × Json)) (p : String)
    (h1p : getField f1 "path" = some (Json.str p))
    (h1t : getField f1 "timestamp" = none)
    (h2p : getField f2 "path" = some (Json.str p))
    (h2t : getField f2 "timestamp" = some Json.null)
    (h2l : getField f2 "location" = none) :
    Atlance.ImageAnalysis.validate (Json.obj f1) =
      Except.error (ContractError.MissingField "timestamp") ∧
    Atlance.ImageAnalysis.validate (Json.obj f2) =
      Except.error (ContractError.MissingField "location") ∧
    Atlance.ImageAnalysis.validate (Json.obj candidateNullFields) =
      Except.ok ⟨"a.jpg", none, none, []⟩ := by
  refine ⟨?_, ?_, rfl⟩
  · rw [Atlance.ImageAnalysis.validate]
    simp only [requireField, h1p, h1t, validateStr, Except.bind]
  · rw [Atlance.ImageAnalysis.validate]
    simp only [requireField, h2p, h2t, h2l, validateStr, validateOpt, Except.bind]

/-- C10 witness: the hypotheses of optional_fields_required_but_nullable
hold at the two concrete candidates omitting one optional key each, and
the three validation outcomes follow. -/
theorem optional_fields_required_but_nullable_witness :
    Atlance.ImageAnalysis.validate (Json.obj candidateNoTimestamp) =
      Except.error (ContractError.MissingField "timestamp") ∧
    Atlance.ImageAnalysis.validate (Json.obj candidateNoLocation) =
      Except.error (ContractError.MissingField "location") ∧
    Atlance.ImageAnalysis.validate (Json.obj candidateNullFields) =
      Except.ok ⟨"a.jpg", none, none, []⟩ :=
  optional_fields_required_but_nullable candidateNoTimestamp candidateNoLocation
    "a.jpg" rfl rfl rfl rfl rfl
